import Mathlib

/-
  Shallow embedding of backend/services/aiService.js: the AI provider
  abstraction (GroqService, OpenAIService), the failover manager
  (AIServiceManager), and their status/validation operations.

  Conventions of the embedding:
  - JavaScript string truthiness: the empty string is the falsy case, so
    a JS expression such as `config.apiKey || fallback` is modelled as
    `if config.apiKey = "" then fallback else config.apiKey`.
  - `timeout` fields are Nat, with 0 standing for an absent/falsy value
    (JS `config.timeout || 30000`).
  - Network effects are modelled by passing the outcome of each axios call
    in as an explicit argument, and every function that may perform a
    network call also returns the list of outbound requests it issued,
    so that "no network call is made" is a statement about that list.
  - JS `throw new Error(message)` is modelled as `Except.error` carrying
    both the message and a tag (`ErrorKind`) identifying which `throw`
    site in the source produced it.
  - `Date.now()` wall-clock timestamps (the `processingTime` metadata
    field) and the axios `temperature: 0.3` float constant are kept out of
    the model (wall-clock time and floating point are not representable);
    the temperature is recorded as tenths to document the request shape.
-/

namespace AIMS

deriving instance DecidableEq for Except

/-- Configuration object handed to a service constructor (the relevant
fields of `config` in `aiService.js`); absent JS fields are the falsy
values `""` and `0`. -/
structure ServiceConfig where
  apiKey : String
  model : String
  timeout : Nat
  deriving DecidableEq

/-- The empty configuration object (JS `{}` / `undefined` parameter). -/
def emptyConfig : ServiceConfig :=
  { apiKey := "", model := "", timeout := 0 }

/-- The `ai` section produced by `envValidation.getConfig('ai')`:
one configuration record per provider. -/
structure AIConfig where
  groq : ServiceConfig
  openai : ServiceConfig
  deriving DecidableEq

/-- Process environment as seen by `aiService.js`: the two API key
variables read directly by the constructors, plus the result of
`getConfig('ai')` (`none` models `require('../config/envValidation')`
or `getConfig` throwing, i.e. the fallback path). -/
structure Env where
  GROQ_API_KEY : String
  OPENAI_API_KEY : String
  getConfigAi : Option AIConfig

/-- Value returned by `getServiceStatus()`.  The base class returns
`{name, configured, timeout}`; the subclasses spread that and add
`name` (overridden), `model` and `baseURL`. -/
structure ServiceStatus where
  name : String
  configured : Bool
  timeout : Nat
  model : String
  baseURL : String
  deriving DecidableEq

/-- One message of the chat-completion payload. -/
structure ChatMessage where
  role : String
  content : String
  deriving DecidableEq

/-- One outbound `axios.post` request to a provider's chat-completion
endpoint, as built by `generateSummary` (URL, JSON body fields, and the
authorization header; `temperature: 0.3` is recorded in tenths). -/
structure ChatRequest where
  url : String
  model : String
  messages : List ChatMessage
  maxTokens : Nat
  temperatureTenths : Nat
  authHeader : String
  timeout : Nat
  deriving DecidableEq

/-- Outcome of one `axios.post` call to a chat-completion endpoint.
`success` models a 2xx response carrying `choices[0].message.content`
and the optional `usage.total_tokens`; `httpError` models an axios
rejection with `error.response.status` set, carrying
`response.data.error.message` (`""` when the body has none); `timeout`
models `error.code === 'ECONNABORTED'`; `ioError` models a rejection
with no response object (network / I-O failure) carrying
`error.message`. -/
inductive HttpOutcome where
  | success (content : String) (totalTokens : Option Nat)
  | httpError (status : Nat) (providerMessage : String)
  | timeout
  | ioError (message : String)
  deriving DecidableEq

/-- Outcome of one `axios.get` health-check call (`validateConnection`):
`ok status` models a resolved (2xx) response, `failed` models any
rejection. -/
inductive HealthOutcome where
  | ok (status : Nat)
  | failed
  deriving DecidableEq

/-- Tag identifying which `throw new Error(...)` site of `aiService.js`
produced an error. -/
inductive ErrorKind where
  | noApiKey
  | timeout
  | invalidCredentials
  | rateLimited
  | providerUnavailable
  | providerError
  | allProvidersFailed
  | noServicesConfigured
  deriving DecidableEq

/-- A thrown JS `Error`: the message it carries, tagged with the source
throw site it came from. -/
structure JsError where
  kind : ErrorKind
  message : String
  deriving DecidableEq

/-- The `metadata` object of a successful adapter response
(`processingTime: Date.now()` is wall clock and not modelled). -/
structure SummaryMetadata where
  service : String
  model : String
  tokensUsed : Nat
  deriving DecidableEq

/-- Successful return value of an adapter's `generateSummary`. -/
structure SummaryResponse where
  content : String
  metadata : SummaryMetadata
  deriving DecidableEq

/-- JS whitespace as it occurs in the strings this system handles
(space, tab, line feed, carriage return). -/
def isJsWhitespace (c : Char) : Bool :=
  c == ' ' || c == '\t' || c == '\n' || c == '\r'

/-- JavaScript `String.prototype.trim()`: strip leading and trailing
whitespace. -/
def jsTrim (s : String) : String :=
  ⟨((s.data.dropWhile isJsWhitespace).reverse.dropWhile isJsWhitespace).reverse⟩

/-- The default prompt template substituted when `instructions` is empty
after trimming (identical string constant in both services). -/
def defaultInstructions : String :=
  "Please provide a comprehensive summary of this meeting transcript. Include:\n1. Key discussion points\n2. Decisions made\n3. Action items and assignments\n4. Next steps\n\nFormat the response in clear sections with bullet points where appropriate."

/-- The fixed system message of every chat-completion request. -/
def systemMessage : String :=
  "You are a helpful assistant that specializes in summarizing meeting transcripts."

/-- The generic axios error message for a rejected HTTP response
(`error.message` when `error.response` is set). -/
def axiosStatusMessage (status : Nat) : String :=
  "Request failed with status code " ++ toString status

/-- State of a `GroqService` instance after its constructor ran:
`config` is the constructor argument (kept by the base class), and
`apiKey`, `baseURL`, `model`, `timeout` are the instance fields the
constructor computes from it and the environment. -/
structure GroqService where
  config : ServiceConfig
  timeout : Nat
  apiKey : String
  baseURL : String
  model : String
  deriving DecidableEq

/-- `new GroqService(config)` under environment `env`:
`apiKey = config.apiKey || process.env.GROQ_API_KEY`,
`model = config.model || 'llama3-8b-8192'`,
`timeout = config.timeout || 30000` (base class). -/
def GroqService.create (env : Env) (config : ServiceConfig) : GroqService :=
  { config := config
    timeout := if config.timeout = 0 then 30000 else config.timeout
    apiKey := if config.apiKey = "" then env.GROQ_API_KEY else config.apiKey
    baseURL := "https://api.groq.com/openai/v1"
    model := if config.model = "" then "llama3-8b-8192" else config.model }

/-- `GroqService.getServiceStatus()`: spreads the base-class status
(`configured: !!this.config.apiKey`) and overrides `name`, adding
`model` and `baseURL`. -/
def GroqService.getServiceStatus (s : GroqService) : ServiceStatus :=
  { name := "Groq"
    configured := if s.config.apiKey = "" then false else true
    timeout := s.timeout
    model := s.model
    baseURL := s.baseURL }

/-- `GroqService.generateSummary(transcript, instructions)`, with the
outcome of the single `axios.post` passed in as `net`.  Returns the JS
result (success object or thrown error) together with the list of
outbound requests actually issued. -/
def GroqService.generateSummary (s : GroqService) (transcript : String)
    (instructions : String) (net : HttpOutcome) :
    Except JsError SummaryResponse × List ChatRequest :=
  if s.apiKey = "" then
    (.error { kind := .noApiKey, message := "Groq API key not configured" }, [])
  else
    let prompt := if jsTrim instructions = "" then defaultInstructions else jsTrim instructions
    let fullPrompt := prompt ++ "\n\nTranscript:\n" ++ transcript
    let req : ChatRequest :=
      { url := s.baseURL ++ "/chat/completions"
        model := s.model
        messages :=
          [ { role := "system", content := systemMessage }
          , { role := "user", content := fullPrompt } ]
        maxTokens := 2000
        temperatureTenths := 3
        authHeader := "Bearer " ++ s.apiKey
        timeout := s.timeout }
    match net with
    | .success content totalTokens =>
        (.ok { content := content
               metadata :=
                 { service := "groq", model := s.model
                   tokensUsed := totalTokens.getD 0 } }, [req])
    | .timeout =>
        (.error { kind := .timeout
                  message := "Groq service timeout - please try again" }, [req])
    | .httpError status providerMessage =>
        if status = 401 then
          (.error { kind := .invalidCredentials
                    message := "Invalid Groq API key" }, [req])
        else if status = 429 then
          (.error { kind := .rateLimited
                    message := "Groq rate limit exceeded - please try again later" }, [req])
        else if 500 ≤ status then
          (.error { kind := .providerUnavailable
                    message := "Groq service temporarily unavailable" }, [req])
        else
          (.error { kind := .providerError
                    message := "Groq service error: " ++
                      (if providerMessage = "" then axiosStatusMessage status
                       else providerMessage) }, [req])
    | .ioError message =>
        (.error { kind := .providerError
                  message := "Groq service error: " ++ message }, [req])

/-- `GroqService.validateConnection()`: returns `false` with no request
when the key is empty, otherwise issues one `axios.get` to `/models`
and returns `response.status === 200` (any rejection yields `false`). -/
def GroqService.validateConnection (s : GroqService) (net : HealthOutcome) :
    Bool × List String :=
  if s.apiKey = "" then (false, [])
  else
    let url := s.baseURL ++ "/models"
    match net with
    | .ok status => (status = 200, [url])
    | .failed => (false, [url])

/-- State of an `OpenAIService` instance after its constructor ran. -/
structure OpenAIService where
  config : ServiceConfig
  timeout : Nat
  apiKey : String
  baseURL : String
  model : String
  deriving DecidableEq

/-- `new OpenAIService(config)` under environment `env`:
`apiKey = config.apiKey || process.env.OPENAI_API_KEY`,
`model = config.model || 'gpt-3.5-turbo'`,
`timeout = config.timeout || 30000` (base class). -/
def OpenAIService.create (env : Env) (config : ServiceConfig) : OpenAIService :=
  { config := config
    timeout := if config.timeout = 0 then 30000 else config.timeout
    apiKey := if config.apiKey = "" then env.OPENAI_API_KEY else config.apiKey
    baseURL := "https://api.openai.com/v1"
    model := if config.model = "" then "gpt-3.5-turbo" else config.model }

/-- `OpenAIService.getServiceStatus()`. -/
def OpenAIService.getServiceStatus (s : OpenAIService) : ServiceStatus :=
  { name := "OpenAI"
    configured := if s.config.apiKey = "" then false else true
    timeout := s.timeout
    model := s.model
    baseURL := s.baseURL }

/-- `OpenAIService.generateSummary(transcript, instructions)` (the code
mirrors `GroqService.generateSummary` with OpenAI-specific constants). -/
def OpenAIService.generateSummary (s : OpenAIService) (transcript : String)
    (instructions : String) (net : HttpOutcome) :
    Except JsError SummaryResponse × List ChatRequest :=
  if s.apiKey = "" then
    (.error { kind := .noApiKey, message := "OpenAI API key not configured" }, [])
  else
    let prompt := if jsTrim instructions = "" then defaultInstructions else jsTrim instructions
    let fullPrompt := prompt ++ "\n\nTranscript:\n" ++ transcript
    let req : ChatRequest :=
      { url := s.baseURL ++ "/chat/completions"
        model := s.model
        messages :=
          [ { role := "system", content := systemMessage }
          , { role := "user", content := fullPrompt } ]
        maxTokens := 2000
        temperatureTenths := 3
        authHeader := "Bearer " ++ s.apiKey
        timeout := s.timeout }
    match net with
    | .success content totalTokens =>
        (.ok { content := content
               metadata :=
                 { service := "openai", model := s.model
                   tokensUsed := totalTokens.getD 0 } }, [req])
    | .timeout =>
        (.error { kind := .timeout
                  message := "OpenAI service timeout - please try again" }, [req])
    | .httpError status providerMessage =>
        if status = 401 then
          (.error { kind := .invalidCredentials
                    message := "Invalid OpenAI API key" }, [req])
        else if status = 429 then
          (.error { kind := .rateLimited
                    message := "OpenAI rate limit exceeded - please try again later" }, [req])
        else if 500 ≤ status then
          (.error { kind := .providerUnavailable
                    message := "OpenAI service temporarily unavailable" }, [req])
        else
          (.error { kind := .providerError
                    message := "OpenAI service error: " ++
                      (if providerMessage = "" then axiosStatusMessage status
                       else providerMessage) }, [req])
    | .ioError message =>
        (.error { kind := .providerError
                  message := "OpenAI service error: " ++ message }, [req])

/-- `OpenAIService.validateConnection()`. -/
def OpenAIService.validateConnection (s : OpenAIService) (net : HealthOutcome) :
    Bool × List String :=
  if s.apiKey = "" then (false, [])
  else
    let url := s.baseURL ++ "/models"
    match net with
    | .ok status => (status = 200, [url])
    | .failed => (false, [url])

/-- A service instance held by the manager: the two concrete subclasses
of `AIService` that `initializeServices` constructs. -/
inductive Service where
  | groq (s : GroqService)
  | openai (s : OpenAIService)
  deriving DecidableEq

/-- Dynamic dispatch of `getServiceStatus()`. -/
def Service.getServiceStatus : Service → ServiceStatus
  | .groq s => s.getServiceStatus
  | .openai s => s.getServiceStatus

/-- Dynamic dispatch of `generateSummary(transcript, instructions)`. -/
def Service.generateSummary (svc : Service) (transcript instructions : String)
    (net : HttpOutcome) : Except JsError SummaryResponse × List ChatRequest :=
  match svc with
  | .groq s => s.generateSummary transcript instructions net
  | .openai s => s.generateSummary transcript instructions net

/-- Dynamic dispatch of `validateConnection()`. -/
def Service.validateConnection (svc : Service) (net : HealthOutcome) :
    Bool × List String :=
  match svc with
  | .groq s => s.validateConnection net
  | .openai s => s.validateConnection net

/-- The instance field `this.apiKey` of either service. -/
def Service.apiKey : Service → String
  | .groq s => s.apiKey
  | .openai s => s.apiKey

/-- The `metadata.service` tag of either service. -/
def Service.serviceTag : Service → String
  | .groq _ => "groq"
  | .openai _ => "openai"

/-- The instance field `this.model` of either service. -/
def Service.model : Service → String
  | .groq s => s.model
  | .openai s => s.model

/-- The instance field `this.baseURL` of either service. -/
def Service.baseURL : Service → String
  | .groq s => s.baseURL
  | .openai s => s.baseURL

/-- The instance field `this.timeout` of either service. -/
def Service.timeoutMs : Service → Nat
  | .groq s => s.timeout
  | .openai s => s.timeout

/-- Manager state: the ordered registry built by `initializeServices`
(`currentServiceIndex` is a diagnostics-only hint; the success-path
mutation of it is not modelled since every call restarts at index 0). -/
structure AIServiceManager where
  services : List Service
  currentServiceIndex : Nat

/-- `new AIServiceManager(config)` / `initializeServices()`: uses the
constructor `config` when non-null, else `getConfig('ai')`, else the
no-argument fallback; in every case it adds a `GroqService` and then an
`OpenAIService`. -/
def AIServiceManager.create (env : Env) (config : Option AIConfig) :
    AIServiceManager :=
  let aiConfig :=
    match config with
    | some c => some c
    | none => env.getConfigAi
  let services :=
    match aiConfig with
    | some c =>
        [Service.groq (GroqService.create env c.groq),
         Service.openai (OpenAIService.create env c.openai)]
    | none =>
        [Service.groq (GroqService.create env emptyConfig),
         Service.openai (OpenAIService.create env emptyConfig)]
  { services := services, currentServiceIndex := 0 }

/-- Manager-level success metadata: the adapter metadata spread together
with `attemptedServices` and `successfulService`. -/
structure ManagerMetadata where
  service : String
  model : String
  tokensUsed : Nat
  attemptedServices : Nat
  successfulService : String
  deriving DecidableEq

/-- Manager-level success value (`{...result, metadata: {...}}`). -/
structure ManagerResult where
  content : String
  metadata : ManagerMetadata
  deriving DecidableEq

/-- `lastError?.message || 'Unknown error'` (with `lastError` initially
undefined). -/
def lastErrorMessage : Option JsError → String
  | some e => e.message
  | none => "Unknown error"

/-- The `for` loop of `AIServiceManager.generateSummary`: tries the
remaining services at registry index `i` with the running `lastError`;
skips an unconfigured service, returns on the first success annotated
with `attemptedServices = i + 1` and the service's status name, records
a failure into `lastError` and continues, and after the loop throws the
aggregate error built from the last failure.  `net j` is the outcome of
the `axios.post` that the service at registry index `j` would make. -/
def tryServices (transcript instructions : String) (net : Nat → HttpOutcome) :
    List Service → Nat → Option JsError →
    Except JsError ManagerResult × List ChatRequest
  | [], _, lastError =>
      (.error { kind := .allProvidersFailed
                message := "All AI services failed. Last error: " ++
                  lastErrorMessage lastError }, [])
  | svc :: rest, i, lastError =>
      let status := svc.getServiceStatus
      if status.configured = false then
        tryServices transcript instructions net rest (i + 1) lastError
      else
        match svc.generateSummary transcript instructions (net i) with
        | (.ok r, reqs) =>
            (.ok { content := r.content
                   metadata :=
                     { service := r.metadata.service
                       model := r.metadata.model
                       tokensUsed := r.metadata.tokensUsed
                       attemptedServices := i + 1
                       successfulService := status.name } }, reqs)
        | (.error e, reqs) =>
            let next := tryServices transcript instructions net rest (i + 1) (some e)
            (next.1, reqs ++ next.2)

/-- `AIServiceManager.generateSummary(transcript, instructions)`:
throws `No AI services configured` on an empty registry, otherwise runs
the failover loop from index 0 with no recorded error. -/
def AIServiceManager.generateSummary (m : AIServiceManager)
    (transcript instructions : String) (net : Nat → HttpOutcome) :
    Except JsError ManagerResult × List ChatRequest :=
  if m.services.length = 0 then
    (.error { kind := .noServicesConfigured
              message := "No AI services configured" }, [])
  else
    tryServices transcript instructions net m.services 0 none

/-- One entry of the object returned by `validateServices()` (the
`catch` branch of the source is dead code for these services, whose
`validateConnection` never throws, so the `error` field never
appears). -/
structure ValidationEntry where
  configured : Bool
  connected : Bool
  status : String
  deriving DecidableEq

/-- Loop body of `AIServiceManager.validateServices`: one entry per
service, keyed by status name (an association list in iteration order;
the two registered services have distinct names, so JS object-key
collisions do not arise), together with all health-check requests
issued.  `net j` is the outcome of the `axios.get` of the service at
index `j`. -/
def validateServicesGo (net : Nat → HealthOutcome) :
    List Service → Nat → List (String × ValidationEntry) × List String
  | [], _ => ([], [])
  | svc :: rest, i =>
      let status := svc.getServiceStatus
      let check := svc.validateConnection (net i)
      let entry : ValidationEntry :=
        { configured := status.configured
          connected := check.1
          status := if check.1 then "healthy" else "unavailable" }
      let next := validateServicesGo net rest (i + 1)
      ((status.name, entry) :: next.1, check.2 ++ next.2)

/-- `AIServiceManager.validateServices()`. -/
def AIServiceManager.validateServices (m : AIServiceManager)
    (net : Nat → HealthOutcome) :
    List (String × ValidationEntry) × List String :=
  validateServicesGo net m.services 0

/-- `AIServiceManager.getServicesStatus()`. -/
def AIServiceManager.getServicesStatus (m : AIServiceManager) :
    List ServiceStatus :=
  m.services.map Service.getServiceStatus

/-- The `ErrorKind` tag of a call result, when it is an error. -/
def errorKindOf {α : Type} : Except JsError α × List ChatRequest → Option ErrorKind
  | (.error e, _) => some e.kind
  | (.ok _, _) => none


/-- Service configuration carrying only an API key (witness inputs). -/
def keyConfig (k : String) : ServiceConfig :=
  { apiKey := k, model := "", timeout := 0 }

/-- Environment with no API keys and no validated configuration. -/
def envNone : Env :=
  { GROQ_API_KEY := "", OPENAI_API_KEY := "", getConfigAi := none }

/-- Environment supplying only the Groq key, via the environment
variable rather than a constructor configuration object. -/
def envWithGroqKey : Env :=
  { GROQ_API_KEY := "gk-env", OPENAI_API_KEY := "", getConfigAi := none }

/-- A validated `ai` configuration with both providers credentialed. -/
def cfgBothKeys : AIConfig :=
  { groq := keyConfig "gk", openai := keyConfig "ok-key" }

/-- Network behavior where the first registry slot fails with HTTP 500
and the second returns content `"Y"` with 7 tokens. -/
def netFirstFails : Nat → HttpOutcome := fun i =>
  if i = 0 then .httpError 500 "" else .success "Y" (some 7)

/-- Network behavior where the first registry slot fails with HTTP 401
and the second with HTTP 429. -/
def netBothFail : Nat → HttpOutcome := fun i =>
  if i = 0 then .httpError 401 "" else .httpError 429 ""


/-- A validated `ai` configuration where only Groq is credentialed
(OPENAI_API_KEY is optional in the environment schema, so this is the
normal single-provider deployment). -/
def cfgGroqOnly : AIConfig :=
  { groq := keyConfig "gk", openai := keyConfig "" }

/-- The value of the loop variable `lastError` after the failover loop
of `AIServiceManager.generateSummary` has traversed the given services
without returning: an unconfigured service is skipped, a failing
service's error replaces the running value.  The `.ok` branch makes the
loop return early, so its value here is irrelevant to every theorem
that uses this function (they hypothesize that no configured service
succeeds); it is mapped to `none`. -/
def loopLastError (transcript instructions : String) (net : Nat → HttpOutcome) :
    List Service → Nat → Option JsError → Option JsError
  | [], _, lastError => lastError
  | svc :: rest, i, lastError =>
      if svc.getServiceStatus.configured = false then
        loopLastError transcript instructions net rest (i + 1) lastError
      else
        match (svc.generateSummary transcript instructions (net i)).1 with
        | .ok _ => none
        | .error e => loopLastError transcript instructions net rest (i + 1) (some e)

/-- The request the Groq adapter of `cfgBothKeys` builds for transcript
`"hello"` with empty instructions (witness input). -/
def wGroqReq : ChatRequest :=
  { url := "https://api.groq.com/openai/v1/chat/completions"
    model := "llama3-8b-8192"
    messages :=
      [ { role := "system", content := systemMessage }
      , { role := "user"
          content := defaultInstructions ++ "\n\nTranscript:\n" ++ "hello" } ]
    maxTokens := 2000
    temperatureTenths := 3
    authHeader := "Bearer gk"
    timeout := 30000 }

/-- The request the OpenAI adapter of `cfgBothKeys` builds for transcript
`"hello"` with empty instructions (witness input). -/
def wOpenAIReq : ChatRequest :=
  { url := "https://api.openai.com/v1/chat/completions"
    model := "gpt-3.5-turbo"
    messages :=
      [ { role := "system", content := systemMessage }
      , { role := "user"
          content := defaultInstructions ++ "\n\nTranscript:\n" ++ "hello" } ]
    maxTokens := 2000
    temperatureTenths := 3
    authHeader := "Bearer ok-key"
    timeout := 30000 }

/-! Helper lemmas about the failover loop. -/

theorem tryServices_skip (t ins : String) (net : Nat → HttpOutcome)
    (svc : Service) (rest : List Service) (i : Nat) (le : Option JsError)
    (h : svc.getServiceStatus.configured = false) :
    tryServices t ins net (svc :: rest) i le =
      tryServices t ins net rest (i + 1) le := by
  simp [tryServices, h]

theorem tryServices_ok_head (t ins : String) (net : Nat → HttpOutcome)
    (svc : Service) (rest : List Service) (i : Nat) (le : Option JsError)
    (hconf : svc.getServiceStatus.configured = true)
    (r : SummaryResponse) (q : List ChatRequest)
    (hcall : svc.generateSummary t ins (net i) = (.ok r, q)) :
    tryServices t ins net (svc :: rest) i le =
      (.ok { content := r.content
             metadata :=
               { service := r.metadata.service
                 model := r.metadata.model
                 tokensUsed := r.metadata.tokensUsed
                 attemptedServices := i + 1
                 successfulService := svc.getServiceStatus.name } }, q) := by
  simp [tryServices, hconf, hcall]

theorem tryServices_fail_head (t ins : String) (net : Nat → HttpOutcome)
    (svc : Service) (rest : List Service) (i : Nat) (le : Option JsError)
    (hconf : svc.getServiceStatus.configured = true)
    (e : JsError) (q : List ChatRequest)
    (hcall : svc.generateSummary t ins (net i) = (.error e, q)) :
    tryServices t ins net (svc :: rest) i le =
      ((tryServices t ins net rest (i + 1) (some e)).1,
        q ++ (tryServices t ins net rest (i + 1) (some e)).2) := by
  simp [tryServices, hconf, hcall]

theorem tryServices_first_success (t ins : String) (net : Nat → HttpOutcome) :
    ∀ (l : List Service) (i : Nat) (le : Option JsError) (k : Nat)
      (hk : k < l.length) (r : SummaryResponse) (q : List ChatRequest),
      (l.get ⟨k, hk⟩).getServiceStatus.configured = true →
      (l.get ⟨k, hk⟩).generateSummary t ins (net (i + k)) = (.ok r, q) →
      (∀ j (hj : j < k),
        (l.get ⟨j, Nat.lt_trans hj hk⟩).getServiceStatus.configured = true →
        ∃ e q2, (l.get ⟨j, Nat.lt_trans hj hk⟩).generateSummary t ins (net (i + j)) =
          (.error e, q2)) →
      (tryServices t ins net l i le).1 =
        .ok { content := r.content
              metadata :=
                { service := r.metadata.service
                  model := r.metadata.model
                  tokensUsed := r.metadata.tokensUsed
                  attemptedServices := i + k + 1
                  successfulService := (l.get ⟨k, hk⟩).getServiceStatus.name } } := by
  intro l
  induction l with
  | nil =>
      intro i le k hk
      exact absurd hk (Nat.not_lt_zero k)
  | cons a rest ih =>
      intro i le k hk r q hconf hok hfail
      cases k with
      | zero =>
          have ha : (a :: rest).get ⟨0, hk⟩ = a := rfl
          rw [ha] at hconf hok
          have hok' : a.generateSummary t ins (net i) = (.ok r, q) := hok
          rw [tryServices_ok_head t ins net a rest i le hconf r q hok']
          simp
      | succ k' =>
          have hk' : k' < rest.length := Nat.lt_of_succ_lt_succ hk
          have hgetk : (a :: rest).get ⟨k' + 1, hk⟩ = rest.get ⟨k', hk'⟩ := rfl
          rw [hgetk] at hconf hok
          have harith : i + (k' + 1) = (i + 1) + k' := by omega
          rw [harith] at hok
          have hfail' : ∀ j (hj : j < k'),
              (rest.get ⟨j, Nat.lt_trans hj hk'⟩).getServiceStatus.configured = true →
              ∃ e q2, (rest.get ⟨j, Nat.lt_trans hj hk'⟩).generateSummary t ins
                (net ((i + 1) + j)) = (.error e, q2) := by
            intro j hj hc
            obtain ⟨e2, q3, hcall⟩ := hfail (j + 1) (Nat.succ_lt_succ hj) hc
            have hj2 : i + (j + 1) = (i + 1) + j := by omega
            rw [hj2] at hcall
            exact ⟨e2, q3, hcall⟩
          by_cases hA : a.getServiceStatus.configured = true
          · obtain ⟨e, q2, hcall⟩ := hfail 0 (Nat.succ_pos k') hA
            have hcall' : a.generateSummary t ins (net i) = (.error e, q2) := hcall
            rw [tryServices_fail_head t ins net a rest i le hA e q2 hcall']
            have := ih (i + 1) (some e) k' hk' r q hconf hok hfail'
            rw [show i + (k' + 1) + 1 = (i + 1) + k' + 1 by omega]
            exact this
          · have hA' : a.getServiceStatus.configured = false := by
              simpa using hA
            rw [tryServices_skip t ins net a rest i le hA']
            have := ih (i + 1) le k' hk' r q hconf hok hfail'
            rw [show i + (k' + 1) + 1 = (i + 1) + k' + 1 by omega]
            exact this

theorem tryServices_all_unconfigured (t ins : String) (net : Nat → HttpOutcome) :
    ∀ (l : List Service) (i : Nat) (le : Option JsError),
      (∀ svc ∈ l, svc.getServiceStatus.configured = false) →
      tryServices t ins net l i le =
        (.error { kind := .allProvidersFailed
                  message := "All AI services failed. Last error: " ++
                    lastErrorMessage le }, []) := by
  intro l
  induction l with
  | nil =>
      intro i le _
      rfl
  | cons a rest ih =>
      intro i le h
      rw [tryServices_skip t ins net a rest i le (h a (List.mem_cons_self a rest))]
      exact ih (i + 1) le (fun svc hs => h svc (List.mem_cons_of_mem a hs))

theorem tryServices_error_is_exhaustion (t ins : String) (net : Nat → HttpOutcome) :
    ∀ (l : List Service) (i : Nat) (le : Option JsError) (e : JsError),
      (tryServices t ins net l i le).1 = .error e → e.kind = .allProvidersFailed := by
  intro l
  induction l with
  | nil =>
      intro i le e h
      simp [tryServices] at h
      rw [← h]
  | cons a rest ih =>
      intro i le e h
      by_cases hA : a.getServiceStatus.configured = true
      · rcases hcall : a.generateSummary t ins (net i) with ⟨res, q⟩
        cases res with
        | ok r =>
            rw [tryServices_ok_head t ins net a rest i le hA r q hcall] at h
            simp at h
        | error e2 =>
            rw [tryServices_fail_head t ins net a rest i le hA e2 q hcall] at h
            exact ih (i + 1) (some e2) e h
      · have hA' : a.getServiceStatus.configured = false := by simpa using hA
        rw [tryServices_skip t ins net a rest i le hA'] at h
        exact ih (i + 1) le e h

theorem validateServicesGo_length (net : Nat → HealthOutcome) :
    ∀ (l : List Service) (i : Nat),
      (validateServicesGo net l i).1.length = l.length := by
  intro l
  induction l with
  | nil => intro i; rfl
  | cons a rest ih =>
      intro i
      simp [validateServicesGo, ih (i + 1)]

theorem generateSummary_eq_tryServices (m : AIServiceManager)
    (t ins : String) (net : Nat → HttpOutcome) (h : ¬ m.services.length = 0) :
    m.generateSummary t ins net = tryServices t ins net m.services 0 none := by
  unfold AIServiceManager.generateSummary
  rw [if_neg h]

theorem tryServices_all_fail (t ins : String) (net : Nat → HttpOutcome) :
    ∀ (l : List Service) (i : Nat) (le : Option JsError),
      (∀ j (hj : j < l.length),
        (l.get ⟨j, hj⟩).getServiceStatus.configured = true →
        ((l.get ⟨j, hj⟩).generateSummary t ins (net (i + j))).1.isOk = false) →
      (tryServices t ins net l i le).1 =
        .error { kind := .allProvidersFailed
                 message := "All AI services failed. Last error: " ++
                   lastErrorMessage (loopLastError t ins net l i le) } := by
  intro l
  induction l with
  | nil =>
      intro i le _
      rfl
  | cons a rest ih =>
      intro i le h
      have hshift : ∀ j (hj : j < rest.length),
          (rest.get ⟨j, hj⟩).getServiceStatus.configured = true →
          ((rest.get ⟨j, hj⟩).generateSummary t ins (net ((i + 1) + j))).1.isOk = false := by
        intro j hj hc
        have hx := h (j + 1) (Nat.succ_lt_succ hj) hc
        rw [show i + (j + 1) = (i + 1) + j by omega] at hx
        exact hx
      by_cases hA : a.getServiceStatus.configured = true
      · have hfa := h 0 (Nat.succ_pos rest.length) hA
        rcases hp : a.generateSummary t ins (net i) with ⟨res, q⟩
        cases res with
        | ok r =>
            exfalso
            have hx : (a.generateSummary t ins (net i)).1.isOk = false := hfa
            rw [hp] at hx
            simp [Except.isOk, Except.toBool] at hx
        | error e =>
            rw [tryServices_fail_head t ins net a rest i le hA e q hp]
            show (tryServices t ins net rest (i + 1) (some e)).1 = _
            rw [ih (i + 1) (some e) hshift]
            have hll : loopLastError t ins net (a :: rest) i le =
                loopLastError t ins net rest (i + 1) (some e) := by
              simp [loopLastError, hA, hp]
            rw [hll]
      · have hA2 : a.getServiceStatus.configured = false := by simpa using hA
        rw [tryServices_skip t ins net a rest i le hA2]
        rw [ih (i + 1) le hshift]
        have hll : loopLastError t ins net (a :: rest) i le =
            loopLastError t ins net rest (i + 1) le := by
          simp [loopLastError, hA2]
        rw [hll]

theorem generateSummary_all_unconfigured (m : AIServiceManager) (t ins : String)
    (net : Nat → HttpOutcome) (hne : ¬ m.services.length = 0)
    (h : ∀ svc ∈ m.services, svc.getServiceStatus.configured = false) :
    m.generateSummary t ins net =
      (.error { kind := .allProvidersFailed
                message := "All AI services failed. Last error: Unknown error" }, []) := by
  rw [generateSummary_eq_tryServices m t ins net hne]
  exact tryServices_all_unconfigured t ins net m.services 0 none h

theorem create_services_length (env : Env) (cfg : Option AIConfig) :
    (AIServiceManager.create env cfg).services.length = 2 := by
  obtain ⟨g, o, gc⟩ := env
  cases cfg with
  | some c => rfl
  | none =>
      cases gc with
      | some c => rfl
      | none => rfl

theorem groq_create_key_empty_unconfigured (env : Env) (c : ServiceConfig)
    (h : (GroqService.create env c).apiKey = "") :
    (GroqService.create env c).getServiceStatus.configured = false := by
  by_cases hc : c.apiKey = ""
  · simp [GroqService.create, GroqService.getServiceStatus, hc]
  · simp [GroqService.create, hc] at h

theorem openai_create_key_empty_unconfigured (env : Env) (c : ServiceConfig)
    (h : (OpenAIService.create env c).apiKey = "") :
    (OpenAIService.create env c).getServiceStatus.configured = false := by
  by_cases hc : c.apiKey = ""
  · simp [OpenAIService.create, OpenAIService.getServiceStatus, hc]
  · simp [OpenAIService.create, hc] at h

theorem create_service_key_configured (env : Env) (cfg : Option AIConfig) :
    ∀ svc ∈ (AIServiceManager.create env cfg).services,
      svc.apiKey = "" → svc.getServiceStatus.configured = false := by
  obtain ⟨g, o, gc⟩ := env
  have hmain : ∀ (cg co : ServiceConfig) (svc : Service),
      svc ∈ [Service.groq (GroqService.create ⟨g, o, gc⟩ cg),
             Service.openai (OpenAIService.create ⟨g, o, gc⟩ co)] →
      svc.apiKey = "" → svc.getServiceStatus.configured = false := by
    intro cg co svc hs hk
    rcases List.mem_cons.mp hs with hs | hs
    · subst hs
      exact groq_create_key_empty_unconfigured ⟨g, o, gc⟩ cg hk
    · rcases List.mem_cons.mp hs with hs | hs
      · subst hs
        exact openai_create_key_empty_unconfigured ⟨g, o, gc⟩ co hk
      · cases hs
  cases cfg with
  | some c => exact hmain c.groq c.openai
  | none =>
      cases gc with
      | some c => exact hmain c.groq c.openai
      | none => exact hmain emptyConfig emptyConfig

theorem service_key_empty_validateConnection (svc : Service) (v : HealthOutcome)
    (h : svc.apiKey = "") : svc.validateConnection v = (false, []) := by
  cases svc with
  | groq s =>
      have hk : s.apiKey = "" := h
      show s.validateConnection v = (false, [])
      unfold GroqService.validateConnection
      rw [if_pos hk]
  | openai s =>
      have hk : s.apiKey = "" := h
      show s.validateConnection v = (false, [])
      unfold OpenAIService.validateConnection
      rw [if_pos hk]

theorem validateServicesGo_entry (net : Nat → HealthOutcome) :
    ∀ (l : List Service) (i k : Nat) (hk : k < l.length),
      (validateServicesGo net l i).1.get? k =
        some ((l.get ⟨k, hk⟩).getServiceStatus.name,
          { configured := (l.get ⟨k, hk⟩).getServiceStatus.configured
            connected := ((l.get ⟨k, hk⟩).validateConnection (net (i + k))).1
            status := if ((l.get ⟨k, hk⟩).validateConnection (net (i + k))).1
              then "healthy" else "unavailable" }) := by
  intro l
  induction l with
  | nil =>
      intro i k hk
      exact absurd hk (Nat.not_lt_zero k)
  | cons a rest ih =>
      intro i k hk
      cases k with
      | zero =>
          simp [validateServicesGo]
      | succ kp =>
          have hkp : kp < rest.length := Nat.lt_of_succ_lt_succ hk
          have hx := ih (i + 1) kp hkp
          rw [show i + (kp + 1) = (i + 1) + kp by omega]
          simpa [validateServicesGo] using hx

/-! Claim theorems. -/

/-- C1: for every non-empty transcript and any instructions, if at least
one configured provider succeeds, the manager's `generateSummary`
returns the result of the first configured provider (in registry order)
that did not fail, annotated with `attemptedServices` equal to that
provider's 1-indexed registry position and `successfulService` equal to
its status name; the failures of the earlier configured providers are
caught inside the loop and the call still succeeds, so they are not
raised to the caller. -/
theorem claim_C1_failover_first_configured_success
    (m : AIServiceManager) (t ins : String) (net : Nat → HttpOutcome)
    (k : Nat) (hk : k < m.services.length) (ht : t ≠ "")
    (r : SummaryResponse) (q : List ChatRequest)
    (hconf : (m.services.get ⟨k, hk⟩).getServiceStatus.configured = true)
    (hok : (m.services.get ⟨k, hk⟩).generateSummary t ins (net k) = (.ok r, q))
    (hfail : ∀ j (hj : j < k),
      (m.services.get ⟨j, Nat.lt_trans hj hk⟩).getServiceStatus.configured = true →
      ∃ e q2, (m.services.get ⟨j, Nat.lt_trans hj hk⟩).generateSummary t ins (net j) =
        (.error e, q2)) :
    (m.generateSummary t ins net).1 =
      .ok { content := r.content
            metadata :=
              { service := r.metadata.service
                model := r.metadata.model
                tokensUsed := r.metadata.tokensUsed
                attemptedServices := k + 1
                successfulService := (m.services.get ⟨k, hk⟩).getServiceStatus.name } } := by
  rw [generateSummary_eq_tryServices m t ins net (by omega)]
  have hok2 : (m.services.get ⟨k, hk⟩).generateSummary t ins (net (0 + k)) = (.ok r, q) := by
    rw [Nat.zero_add]
    exact hok
  have hfail2 : ∀ j (hj : j < k),
      (m.services.get ⟨j, Nat.lt_trans hj hk⟩).getServiceStatus.configured = true →
      ∃ e q2, (m.services.get ⟨j, Nat.lt_trans hj hk⟩).generateSummary t ins (net (0 + j)) =
        (.error e, q2) := by
    intro j hj hc
    rw [Nat.zero_add]
    exact hfail j hj hc
  have h := tryServices_first_success t ins net m.services 0 none k hk r q hconf hok2 hfail2
  rw [h, Nat.zero_add]

theorem claim_C1_witness :
    ((AIServiceManager.create envNone (some cfgBothKeys)).generateSummary
        "hello" "" netFirstFails).1 =
      .ok { content := "Y"
            metadata :=
              { service := "openai", model := "gpt-3.5-turbo", tokensUsed := 7
                attemptedServices := 2, successfulService := "OpenAI" } } :=
  claim_C1_failover_first_configured_success
    (AIServiceManager.create envNone (some cfgBothKeys)) "hello" "" netFirstFails
    1 (by decide) (by decide)
    { content := "Y"
      metadata := { service := "openai", model := "gpt-3.5-turbo", tokensUsed := 7 } }
    [wOpenAIReq] (by decide) (by rfl)
    (by
      intro j hj hc
      have hj0 : j = 0 := by omega
      subst hj0
      exact ⟨{ kind := .providerUnavailable
               message := "Groq service temporarily unavailable" }, [wGroqReq], by rfl⟩)

set_option maxRecDepth 4096 in
/-- C2 counterexample: with both providers configured and both failing
(Groq with 401, OpenAI with 429), the thrown error is a single flat
message naming only the last failure; it carries no ordered
per-provider breakdown, and the first provider's failure message
("Invalid Groq API key") does not occur in it. -/
theorem claim_C2_counterexample :
    ((AIServiceManager.create envNone (some cfgBothKeys)).generateSummary
        "t" "" netBothFail).1 =
      .error { kind := .allProvidersFailed
               message := "All AI services failed. Last error: OpenAI rate limit exceeded - please try again later" } ∧
    ¬ List.IsInfix "Invalid Groq API key".data
      "All AI services failed. Last error: OpenAI rate limit exceeded - please try again later".data := by
  exact ⟨by rfl, by decide⟩

/-- C2 amended: whenever every configured provider of the registry
fails (any subset of the providers may be configured, including exactly
one), `generateSummary` fails with a single aggregate error whose
message is "All AI services failed. Last error: " followed by the
message of the failure recorded last by the loop — the last configured
provider's failure, or "Unknown error" when none is configured; no
per-provider breakdown is carried. -/
theorem claim_C2_amended (m : AIServiceManager) (t ins : String)
    (net : Nat → HttpOutcome) (hne : ¬ m.services.length = 0)
    (hfail : ∀ j (hj : j < m.services.length),
      (m.services.get ⟨j, hj⟩).getServiceStatus.configured = true →
      ((m.services.get ⟨j, hj⟩).generateSummary t ins (net j)).1.isOk = false) :
    (m.generateSummary t ins net).1 =
      .error { kind := .allProvidersFailed
               message := "All AI services failed. Last error: " ++
                 lastErrorMessage (loopLastError t ins net m.services 0 none) } := by
  rw [generateSummary_eq_tryServices m t ins net hne]
  apply tryServices_all_fail
  intro j hj hc
  rw [Nat.zero_add]
  exact hfail j hj hc

theorem claim_C2_witness :
    ((AIServiceManager.create envNone (some cfgGroqOnly)).generateSummary "t" ""
        (fun _ => .httpError 500 "")).1 =
      .error { kind := .allProvidersFailed
               message := "All AI services failed. Last error: Groq service temporarily unavailable" } :=
  claim_C2_amended (AIServiceManager.create envNone (some cfgGroqOnly)) "t" ""
    (fun _ => .httpError 500 "") (by decide) (by decide)


/-- C3 counterexample: with zero configured providers (all credentials
empty), `generateSummary` makes no network call but does NOT fail with
the distinct `No AI services configured` error; it falls through the
loop and throws the same all-providers-failed exhaustion error, with
"Unknown error" as the last error. -/
theorem claim_C3_counterexample :
    (AIServiceManager.create envNone none).generateSummary "t" "" (fun _ => .timeout) =
      (.error { kind := .allProvidersFailed
                message := "All AI services failed. Last error: Unknown error" }, []) ∧
    ErrorKind.allProvidersFailed ≠ ErrorKind.noServicesConfigured := by
  exact ⟨by rfl, by decide⟩

/-- C3 amended: for every constructor-built manager in which every
registered provider is unconfigured (all credentials empty), the call
makes no network call, but it fails with the all-providers-failed
exhaustion error carrying "Unknown error" as the last error — not with
a distinct no-providers-configured error: the `No AI services
configured` branch requires an empty services list, which the
constructor never produces. -/
theorem claim_C3_amended (env : Env) (cfg : Option AIConfig) (t ins : String)
    (net : Nat → HttpOutcome)
    (h : ∀ svc ∈ (AIServiceManager.create env cfg).services,
      svc.getServiceStatus.configured = false) :
    (AIServiceManager.create env cfg).generateSummary t ins net =
      (.error { kind := .allProvidersFailed
                message := "All AI services failed. Last error: Unknown error" }, []) ∧
    ¬ ErrorKind.allProvidersFailed = ErrorKind.noServicesConfigured := by
  have hlen : (AIServiceManager.create env cfg).services.length = 2 :=
    create_services_length env cfg
  exact ⟨generateSummary_all_unconfigured (AIServiceManager.create env cfg) t ins net
    (by omega) h, by decide⟩

theorem claim_C3_witness :
    (AIServiceManager.create envNone none).generateSummary "t" "x" (fun _ => .timeout) =
      (.error { kind := .allProvidersFailed
                message := "All AI services failed. Last error: Unknown error" }, []) :=
  (claim_C3_amended envNone none "t" "x" (fun _ => .timeout) (by decide)).1

/-- C4 counterexample: a configured Groq adapter receiving a transcript
that is empty after trimming does not reject it locally; it issues its
network call (one outbound request) and, when the provider responds
2xx, even returns a success. -/
theorem claim_C4_counterexample :
    ((GroqService.create envNone (keyConfig "k")).generateSummary
        "" "" (.success "S" none)).2.length = 1 ∧
    ((GroqService.create envNone (keyConfig "k")).generateSummary
        "" "" (.success "S" none)).1 =
      .ok { content := "S"
            metadata := { service := "groq", model := "llama3-8b-8192", tokensUsed := 0 } } := by
  exact ⟨by rfl, by rfl⟩

/-- C4 amended: the only local pre-network rejection in an adapter's
`generateSummary` is the missing-API-key check; a transcript that is
empty after trimming is not rejected, and a configured adapter issues
exactly one network call for it regardless of the instructions. -/
theorem claim_C4_amended (svc : Service) (t ins : String) (net : HttpOutcome)
    (hkey : ¬ svc.apiKey = "") (htr : jsTrim t = "") :
    (svc.generateSummary t ins net).2.length = 1 := by
  cases svc with
  | groq s =>
      have hk : ¬ s.apiKey = "" := hkey
      show (s.generateSummary t ins net).2.length = 1
      unfold GroqService.generateSummary
      rw [if_neg hk]
      cases net with
      | success c tok => rfl
      | timeout => rfl
      | ioError m => rfl
      | httpError st pm =>
          show (if st = 401 then _ else if st = 429 then _ else
            if 500 ≤ st then _ else _ : Except JsError SummaryResponse ×
              List ChatRequest).2.length = 1
          split
          · rfl
          · split
            · rfl
            · split
              · rfl
              · rfl
  | openai s =>
      have hk : ¬ s.apiKey = "" := hkey
      show (s.generateSummary t ins net).2.length = 1
      unfold OpenAIService.generateSummary
      rw [if_neg hk]
      cases net with
      | success c tok => rfl
      | timeout => rfl
      | ioError m => rfl
      | httpError st pm =>
          show (if st = 401 then _ else if st = 429 then _ else
            if 500 ≤ st then _ else _ : Except JsError SummaryResponse ×
              List ChatRequest).2.length = 1
          split
          · rfl
          · split
            · rfl
            · split
              · rfl
              · rfl

theorem claim_C4_witness :
    ((Service.groq (GroqService.create envNone (keyConfig "k"))).generateSummary
        " \n " "x" .timeout).2.length = 1 :=
  claim_C4_amended (Service.groq (GroqService.create envNone (keyConfig "k")))
    " \n " "x" .timeout (by decide) (by decide)

/-- C5 counterexample: a provider 2xx response whose content is the
empty string is not treated as a failure: with both providers
configured and the first returning empty content, the manager returns a
successful `SummarizationResult` with empty content from the first
provider, and failover does not proceed to the second. -/
theorem claim_C5_counterexample :
    ((AIServiceManager.create envNone (some cfgBothKeys)).generateSummary "t" ""
        (fun i => if i = 0 then .success "" none else .success "Y" (some 7))).1 =
      .ok { content := ""
            metadata :=
              { service := "groq", model := "llama3-8b-8192", tokensUsed := 0
                attemptedServices := 1, successfulService := "Groq" } } := by
  rfl

/-- C5 amended: a configured adapter turns every 2xx provider response
into a successful `SummarizationResult` whose content is passed through
unchecked; empty content is returned as a success, not mapped to a
provider failure. -/
theorem claim_C5_amended (svc : Service) (t ins c : String) (tok : Option Nat)
    (hkey : ¬ svc.apiKey = "") :
    (svc.generateSummary t ins (.success c tok)).1 =
      .ok { content := c
            metadata :=
              { service := svc.serviceTag, model := svc.model
                tokensUsed := tok.getD 0 } } := by
  cases svc with
  | groq s =>
      have hk : ¬ s.apiKey = "" := hkey
      show ((s.generateSummary t ins (.success c tok)).1 : Except JsError SummaryResponse) = _
      unfold GroqService.generateSummary
      rw [if_neg hk]
      rfl
  | openai s =>
      have hk : ¬ s.apiKey = "" := hkey
      show ((s.generateSummary t ins (.success c tok)).1 : Except JsError SummaryResponse) = _
      unfold OpenAIService.generateSummary
      rw [if_neg hk]
      rfl

theorem claim_C5_witness :
    ((Service.groq (GroqService.create envNone (keyConfig "k"))).generateSummary
        "t" "u" (.success "" none)).1 =
      .ok { content := ""
            metadata := { service := "groq", model := "llama3-8b-8192", tokensUsed := 0 } } :=
  claim_C5_amended (Service.groq (GroqService.create envNone (keyConfig "k")))
    "t" "u" "" none (by decide)


/-- C6 counterexample: a 403 response is NOT mapped to the
invalid-credentials error; the code checks only 401, so 403 falls
through to the generic provider error carrying the provider message. -/
theorem claim_C6_counterexample :
    ((GroqService.create envNone (keyConfig "k")).generateSummary "t" "u"
        (.httpError 403 "Forbidden")).1 =
      .error { kind := .providerError, message := "Groq service error: Forbidden" } ∧
    ErrorKind.providerError ≠ ErrorKind.invalidCredentials := by
  exact ⟨by rfl, by decide⟩

/-- C6 amended: for a configured adapter the failure mapping is: a
timeout (ECONNABORTED) maps to the timeout error; any other I/O failure
maps to the generic provider error; HTTP 401 maps to invalid
credentials (403 does not — it falls through); HTTP 429 maps to rate
limited; HTTP status ≥ 500 maps to provider unavailable; and every
other non-2xx status (including 403) maps to the generic provider error
carrying the provider's message verbatim. -/
theorem claim_C6_amended (svc : Service) (t ins : String)
    (hkey : ¬ svc.apiKey = "") :
    errorKindOf (svc.generateSummary t ins .timeout) = some .timeout ∧
    (∀ msg, errorKindOf (svc.generateSummary t ins (.ioError msg)) = some .providerError) ∧
    (∀ pm, errorKindOf (svc.generateSummary t ins (.httpError 401 pm)) =
      some .invalidCredentials) ∧
    (∀ pm, errorKindOf (svc.generateSummary t ins (.httpError 429 pm)) =
      some .rateLimited) ∧
    (∀ st pm, 500 ≤ st →
      errorKindOf (svc.generateSummary t ins (.httpError st pm)) =
        some .providerUnavailable) ∧
    (∀ st pm, ¬ st = 401 → ¬ st = 429 → st < 500 → ¬ pm = "" →
      (svc.generateSummary t ins (.httpError st pm)).1 =
        .error { kind := .providerError
                 message := svc.getServiceStatus.name ++ " service error: " ++ pm }) := by
  cases svc with
  | groq s =>
      have hk : ¬ s.apiKey = "" := hkey
      refine ⟨?_, ?_, ?_, ?_, ?_, ?_⟩
      · show errorKindOf (s.generateSummary t ins .timeout) = _
        unfold GroqService.generateSummary
        rw [if_neg hk]
        rfl
      · intro msg
        show errorKindOf (s.generateSummary t ins (.ioError msg)) = _
        unfold GroqService.generateSummary
        rw [if_neg hk]
        rfl
      · intro pm
        show errorKindOf (s.generateSummary t ins (.httpError 401 pm)) = _
        unfold GroqService.generateSummary
        rw [if_neg hk]
        rfl
      · intro pm
        show errorKindOf (s.generateSummary t ins (.httpError 429 pm)) = _
        unfold GroqService.generateSummary
        rw [if_neg hk]
        rfl
      · intro st pm h5
        show errorKindOf (s.generateSummary t ins (.httpError st pm)) = _
        unfold GroqService.generateSummary
        rw [if_neg hk]
        show errorKindOf (if st = 401 then _ else if st = 429 then _ else
          if 500 ≤ st then _ else (_ : Except JsError SummaryResponse ×
            List ChatRequest)) = _
        rw [if_neg (by omega : ¬ st = 401), if_neg (by omega : ¬ st = 429), if_pos h5]
        rfl
      · intro st pm h1 h2 h3 hpm
        show (s.generateSummary t ins (.httpError st pm)).1 = _
        unfold GroqService.generateSummary
        rw [if_neg hk]
        show ((if st = 401 then _ else if st = 429 then _ else
          if 500 ≤ st then _ else (_ : Except JsError SummaryResponse ×
            List ChatRequest))).1 = _
        rw [if_neg h1, if_neg h2, if_neg (by omega : ¬ (500 ≤ st)), if_neg hpm]
        rfl
  | openai s =>
      have hk : ¬ s.apiKey = "" := hkey
      refine ⟨?_, ?_, ?_, ?_, ?_, ?_⟩
      · show errorKindOf (s.generateSummary t ins .timeout) = _
        unfold OpenAIService.generateSummary
        rw [if_neg hk]
        rfl
      · intro msg
        show errorKindOf (s.generateSummary t ins (.ioError msg)) = _
        unfold OpenAIService.generateSummary
        rw [if_neg hk]
        rfl
      · intro pm
        show errorKindOf (s.generateSummary t ins (.httpError 401 pm)) = _
        unfold OpenAIService.generateSummary
        rw [if_neg hk]
        rfl
      · intro pm
        show errorKindOf (s.generateSummary t ins (.httpError 429 pm)) = _
        unfold OpenAIService.generateSummary
        rw [if_neg hk]
        rfl
      · intro st pm h5
        show errorKindOf (s.generateSummary t ins (.httpError st pm)) = _
        unfold OpenAIService.generateSummary
        rw [if_neg hk]
        show errorKindOf (if st = 401 then _ else if st = 429 then _ else
          if 500 ≤ st then _ else (_ : Except JsError SummaryResponse ×
            List ChatRequest)) = _
        rw [if_neg (by omega : ¬ st = 401), if_neg (by omega : ¬ st = 429), if_pos h5]
        rfl
      · intro st pm h1 h2 h3 hpm
        show (s.generateSummary t ins (.httpError st pm)).1 = _
        unfold OpenAIService.generateSummary
        rw [if_neg hk]
        show ((if st = 401 then _ else if st = 429 then _ else
          if 500 ≤ st then _ else (_ : Except JsError SummaryResponse ×
            List ChatRequest))).1 = _
        rw [if_neg h1, if_neg h2, if_neg (by omega : ¬ (500 ≤ st)), if_neg hpm]
        rfl

theorem claim_C6_witness :
    errorKindOf ((Service.groq (GroqService.create envNone (keyConfig "k"))).generateSummary
        "t" "u" .timeout) = some .timeout ∧
    ((Service.groq (GroqService.create envNone (keyConfig "k"))).generateSummary "t" "u"
        (.httpError 403 "denied")).1 =
      .error { kind := .providerError, message := "Groq service error: denied" } :=
  ⟨(claim_C6_amended (Service.groq (GroqService.create envNone (keyConfig "k"))) "t" "u"
      (by decide)).1,
   (claim_C6_amended (Service.groq (GroqService.create envNone (keyConfig "k"))) "t" "u"
      (by decide)).2.2.2.2.2 403 "denied" (by decide) (by decide) (by decide) (by decide)⟩

/-- C7: for every summarize call of a configured adapter, empty-
after-trim instructions are replaced by the fixed default prompt
template, and the single request built (whatever the network outcome)
goes to the provider's chat-completions endpoint with the fixed
summarization-assistant system message and a user message consisting of
the (possibly defaulted, trimmed) instructions followed by the
transcript text. -/
theorem claim_C7_prompt_request (svc : Service) (t ins : String) (net : HttpOutcome)
    (hkey : ¬ svc.apiKey = "") :
    (svc.generateSummary t ins net).2 =
      [ { url := svc.baseURL ++ "/chat/completions"
          model := svc.model
          messages :=
            [ { role := "system", content := systemMessage }
            , { role := "user"
                content := (if jsTrim ins = "" then defaultInstructions else jsTrim ins) ++
                  "\n\nTranscript:\n" ++ t } ]
          maxTokens := 2000
          temperatureTenths := 3
          authHeader := "Bearer " ++ svc.apiKey
          timeout := svc.timeoutMs } ] := by
  cases svc with
  | groq s =>
      have hk : ¬ s.apiKey = "" := hkey
      show (s.generateSummary t ins net).2 = _
      unfold GroqService.generateSummary
      rw [if_neg hk]
      cases net with
      | success c tok => rfl
      | timeout => rfl
      | ioError m => rfl
      | httpError st pm =>
          show (if st = 401 then _ else if st = 429 then _ else
            if 500 ≤ st then _ else _ : Except JsError SummaryResponse ×
              List ChatRequest).2 = _
          split
          · rfl
          · split
            · rfl
            · split
              · rfl
              · rfl
  | openai s =>
      have hk : ¬ s.apiKey = "" := hkey
      show (s.generateSummary t ins net).2 = _
      unfold OpenAIService.generateSummary
      rw [if_neg hk]
      cases net with
      | success c tok => rfl
      | timeout => rfl
      | ioError m => rfl
      | httpError st pm =>
          show (if st = 401 then _ else if st = 429 then _ else
            if 500 ≤ st then _ else _ : Except JsError SummaryResponse ×
              List ChatRequest).2 = _
          split
          · rfl
          · split
            · rfl
            · split
              · rfl
              · rfl

theorem claim_C7_witness :
    ((Service.groq (GroqService.create envNone (keyConfig "k"))).generateSummary
        "hello" "" (.success "S" none)).2 =
      [ { url := "https://api.groq.com/openai/v1" ++ "/chat/completions"
          model := "llama3-8b-8192"
          messages :=
            [ { role := "system", content := systemMessage }
            , { role := "user"
                content := (if jsTrim "" = "" then defaultInstructions else jsTrim "") ++
                  "\n\nTranscript:\n" ++ "hello" } ]
          maxTokens := 2000
          temperatureTenths := 3
          authHeader := "Bearer " ++ "k"
          timeout := 30000 } ] :=
  claim_C7_prompt_request (Service.groq (GroqService.create envNone (keyConfig "k")))
    "hello" "" (.success "S" none) (by decide)

/-- C8 counterexample: a Groq adapter constructed with an empty
configuration object while the GROQ_API_KEY environment variable is set
has a non-empty credential field, yet its reported `configured` flag is
false — the flag reads `config.apiKey`, not the credential field. -/
theorem claim_C8_counterexample :
    (GroqService.create envWithGroqKey emptyConfig).apiKey = "gk-env" ∧
    ¬ (GroqService.create envWithGroqKey emptyConfig).apiKey = "" ∧
    (GroqService.create envWithGroqKey emptyConfig).getServiceStatus.configured = false := by
  exact ⟨by rfl, by decide, by rfl⟩

/-- C8 amended: `getServiceStatus` is pure (a function of the instance
state alone, no I/O), and its `configured` field is true iff the
`apiKey` of the configuration object passed at construction is
non-empty; a credential supplied only through the environment variable
populates the adapter's credential field but leaves `configured`
false. -/
theorem claim_C8_amended (env : Env) (cfg : ServiceConfig) :
    ((GroqService.create env cfg).getServiceStatus.configured = true ↔ ¬ cfg.apiKey = "") ∧
    (cfg.apiKey = "" → (GroqService.create env cfg).apiKey = env.GROQ_API_KEY) ∧
    ((OpenAIService.create env cfg).getServiceStatus.configured = true ↔ ¬ cfg.apiKey = "") ∧
    (cfg.apiKey = "" → (OpenAIService.create env cfg).apiKey = env.OPENAI_API_KEY) := by
  by_cases h : cfg.apiKey = "" <;>
    simp [GroqService.create, GroqService.getServiceStatus, OpenAIService.create,
      OpenAIService.getServiceStatus, h]

theorem claim_C8_witness :
    (GroqService.create envWithGroqKey emptyConfig).apiKey =
      envWithGroqKey.GROQ_API_KEY ∧
    (OpenAIService.create envWithGroqKey emptyConfig).apiKey =
      envWithGroqKey.OPENAI_API_KEY :=
  ⟨(claim_C8_amended envWithGroqKey emptyConfig).2.1 rfl,
   (claim_C8_amended envWithGroqKey emptyConfig).2.2.2 rfl⟩


/-- C9 counterexample: with both registered providers unconfigured (no
credential anywhere), `validateServices` makes no network call but
reports each of them with status "unavailable" — there is no
"unconfigured" status value in the code. -/
theorem claim_C9_counterexample :
    (AIServiceManager.create envNone none).validateServices (fun _ => .failed) =
      ([("Groq", { configured := false, connected := false, status := "unavailable" }),
        ("OpenAI", { configured := false, connected := false, status := "unavailable" })],
       []) ∧
    "unavailable" ≠ "unconfigured" := by
  exact ⟨by rfl, by decide⟩

/-- C9 amended: `validateServices` returns exactly one entry per
registered provider (configured or not), in registry order; and for a
constructor-built manager, every registered adapter whose credential
field (config- or env-supplied apiKey) is empty triggers no network
call — its health check issues no request — and its entry reports
`configured = false`, `connected = false`, and status "unavailable"
(not "unconfigured"), including in a mixed registry where the other
provider is credentialed. -/
theorem claim_C9_amended (env : Env) (cfg : Option AIConfig) (net : Nat → HealthOutcome) :
    ((AIServiceManager.create env cfg).validateServices net).1.length =
      (AIServiceManager.create env cfg).services.length ∧
    ∀ k (hk : k < (AIServiceManager.create env cfg).services.length),
      ((AIServiceManager.create env cfg).services.get ⟨k, hk⟩).apiKey = "" →
      ((AIServiceManager.create env cfg).services.get ⟨k, hk⟩).validateConnection (net k) =
        (false, []) ∧
      ((AIServiceManager.create env cfg).validateServices net).1.get? k =
        some (((AIServiceManager.create env cfg).services.get ⟨k, hk⟩).getServiceStatus.name,
          { configured := false, connected := false, status := "unavailable" }) := by
  refine ⟨validateServicesGo_length net (AIServiceManager.create env cfg).services 0, ?_⟩
  intro k hk hkey
  have hconf : ((AIServiceManager.create env cfg).services.get
      ⟨k, hk⟩).getServiceStatus.configured = false :=
    create_service_key_configured env cfg _ (List.get_mem _ _ _) hkey
  have hvc : ((AIServiceManager.create env cfg).services.get
      ⟨k, hk⟩).validateConnection (net k) = (false, []) :=
    service_key_empty_validateConnection _ (net k) hkey
  refine ⟨hvc, ?_⟩
  have hg := validateServicesGo_entry net (AIServiceManager.create env cfg).services 0 k hk
  rw [Nat.zero_add] at hg
  show (validateServicesGo net (AIServiceManager.create env cfg).services 0).1.get? k = _
  rw [hg, hconf, hvc]
  rfl

theorem claim_C9_witness :
    ((AIServiceManager.create envNone (some cfgGroqOnly)).services.get
        ⟨1, by decide⟩).validateConnection ((fun _ => HealthOutcome.failed) 1) =
      (false, []) ∧
    ((AIServiceManager.create envNone (some cfgGroqOnly)).validateServices
        (fun _ => HealthOutcome.failed)).1.get? 1 =
      some ("OpenAI", { configured := false, connected := false, status := "unavailable" }) :=
  (claim_C9_amended envNone (some cfgGroqOnly) (fun _ => HealthOutcome.failed)).2 1
    (by decide) (by decide)

/-- C10: every manager produced by the constructor (with or without a
configuration argument, with or without a validated environment
configuration) registers a GroqService and then an OpenAIService, so
the services list has length exactly 2 (hence at least 2) and the
`No AI services configured` empty-registry branch of `generateSummary`
is unreachable: any error the call produces is the exhaustion error,
never the empty-registry error. -/
theorem claim_C10_registry_always_two (env : Env) (cfg : Option AIConfig) :
    (AIServiceManager.create env cfg).services.length = 2 ∧
    ∀ (t ins : String) (net : Nat → HttpOutcome) (e : JsError),
      ((AIServiceManager.create env cfg).generateSummary t ins net).1 = .error e →
      e.kind = .allProvidersFailed ∧ ¬ e.kind = .noServicesConfigured := by
  have hlen : (AIServiceManager.create env cfg).services.length = 2 := by
    obtain ⟨g, o, gc⟩ := env
    cases cfg with
    | some c => rfl
    | none =>
        cases gc with
        | some c => rfl
        | none => rfl
  refine ⟨hlen, ?_⟩
  intro t ins net e h
  rw [generateSummary_eq_tryServices _ t ins net (by omega)] at h
  have hkind := tryServices_error_is_exhaustion t ins net
    (AIServiceManager.create env cfg).services 0 none e h
  refine ⟨hkind, ?_⟩
  rw [hkind]
  decide

theorem claim_C10_witness :
    (AIServiceManager.create envNone none).services.length = 2 ∧
    ((JsError.mk .allProvidersFailed
        "All AI services failed. Last error: Unknown error").kind = .allProvidersFailed ∧
      ¬ (JsError.mk .allProvidersFailed
        "All AI services failed. Last error: Unknown error").kind = .noServicesConfigured) :=
  ⟨(claim_C10_registry_always_two envNone none).1,
   (claim_C10_registry_always_two envNone none).2 "t" "" (fun _ => .timeout) _ (by rfl)⟩

end AIMS
